import Mathlib

/-!
Shallow embedding of the disaster-response coordination web application
(src/main5.py): data model (sqlite tables, src/main5.py lines 563-640),
the role-gating decorator `roles_required` (lines 720-728), and the
form-handler routes `register` (763-790), `alerts` (828-905),
`report_incident` (907-926), `assign_tasks` (928-977),
`update_task_status` (1003-1025), `resources` (1027-1050) and
`delete_resource` (1052-1059).

Machine-level conventions: sqlite INTEGER ids are Nat, REAL coordinates
are Rat, timestamps are Nat (the handlers only ever store the current
clock value), booleans stored as INTEGER stay Nat. Python `str.strip`,
`int(...)` and `float(...)` are modelled below by executable functions
over the character list of the string.
-/

namespace DebrisOps

/-- Model of the whitespace test used by Python `str.strip` (restricted to
the ASCII whitespace that can occur in form fields). -/
def isSpaceChar (c : Char) : Bool :=
  c == ' ' || c == '\t' || c == '\n' || c == '\r'

/-- Drop leading whitespace characters from a character list. -/
def dropLeadingSpaces : List Char → List Char
  | [] => []
  | c :: cs => if isSpaceChar c then dropLeadingSpaces cs else c :: cs

/-- Model of Python `str.strip()`: remove leading and trailing whitespace. -/
def pyStrip (s : String) : String :=
  ⟨dropLeadingSpaces ((dropLeadingSpaces s.data.reverse).reverse)⟩

/-- Numeric value of a digit string (caller checks all characters are digits). -/
def digitsVal (cs : List Char) : Nat :=
  cs.foldl (fun acc c => acc * 10 + (c.toNat - 48)) 0

/-- Model of Python `int(s)` for decimal string literals: optional sign,
then a non-empty run of digits, with surrounding whitespace allowed;
anything else raises ValueError (here: `none`). -/
def parsePyInt (s : String) : Option Int :=
  let cs := (pyStrip s).data
  let signBody : Int × List Char :=
    match cs with
    | '-' :: rest => (-1, rest)
    | '+' :: rest => (1, rest)
    | _ => (1, cs)
  if !signBody.2.isEmpty && signBody.2.all Char.isDigit then
    some (signBody.1 * (digitsVal signBody.2 : Int))
  else none

/-- Split a character list at its first dot, if any. -/
def breakAtDot : List Char → Option (List Char × List Char)
  | [] => none
  | c :: cs =>
    if c == '.' then some ([], cs)
    else (breakAtDot cs).map (fun p => (c :: p.1, p.2))

/-- Model of Python `float(s)` for plain decimal literals: optional sign,
digits with at most one dot, at least one digit overall ("1.", ".5" and
"1.5" parse, "." and non-numeric text raise ValueError, here `none`).
Exponent, `inf` and `nan` forms are omitted; no claim depends on them. -/
def parsePyFloat (s : String) : Option Rat :=
  let cs := (pyStrip s).data
  let signBody : Int × List Char :=
    match cs with
    | '-' :: rest => (-1, rest)
    | '+' :: rest => (1, rest)
    | _ => (1, cs)
  match breakAtDot signBody.2 with
  | none =>
    if !signBody.2.isEmpty && signBody.2.all Char.isDigit then
      some (mkRat (signBody.1 * (digitsVal signBody.2 : Int)) 1)
    else none
  | some (w, f) =>
    if w.isEmpty && f.isEmpty then none
    else if w.all Char.isDigit && f.all Char.isDigit then
      some (mkRat (signBody.1 * ((digitsVal w * 10 ^ f.length + digitsVal f : Nat) : Int))
        (10 ^ f.length))
    else none

/-- Model of `hashlib.sha256(...).hexdigest()`; the claims under
verification never inspect the digest, only store and compare it, so an
injective tagging of the input suffices. -/
def sha256Hex (s : String) : String :=
  "sha256:" ++ s

/-- Row of the `users` table (src/main5.py line 565). -/
structure User where
  id : Nat
  username : String
  password_hash : String
  role : String
  contact : String
  deriving DecidableEq

/-- Row of the `incidents` table (src/main5.py line 566). -/
structure Incident where
  id : Nat
  itype : String
  severity : Int
  lat : Rat
  lng : Rat
  status : String
  reported_at : Nat
  deriving DecidableEq

/-- Row of the `volunteers` table (src/main5.py line 567). -/
structure Volunteer where
  id : Nat
  name : String
  phone : Option String
  lat : Rat
  lng : Rat
  available : Nat
  deriving DecidableEq

/-- Row of the `resources` table (src/main5.py line 568); the handler at
line 1038 inserts the raw form string for `qty`, so the field is a String. -/
structure Resource where
  id : Nat
  rtype : String
  qty : String
  location : String
  deriving DecidableEq

/-- Row of the `tasks` table (src/main5.py line 571). -/
structure Task where
  id : Nat
  incident_id : Nat
  volunteer_id : Nat
  resource_id : Option Nat
  status : String
  created_at : Nat
  deriving DecidableEq

/-- The persistent store: the five mutable tables of the sqlite database
(hospitals and shelters are static seed data never written by a handler). -/
structure Store where
  users : List User
  incidents : List Incident
  volunteers : List Volunteer
  resources : List Resource
  tasks : List Task
  deriving DecidableEq

/-- Inline flash message categories used by the templates
(src/main5.py lines 139-148). -/
inductive Flash where
  | success (msg : String)
  | error (msg : String)
  | warning (msg : String)
  | info (msg : String)
  deriving DecidableEq

/-- Observable outcome of a request: `forbidden` is the `abort(403)` of
`roles_required`, `page` renders a template with an optional flash,
`redirect` is a Flask redirect, and `serverError` is an unhandled Python
exception propagating out of the handler. -/
inductive Outcome where
  | forbidden
  | page (flash : Option Flash)
  | redirect (target : String)
  | serverError (exnMsg : String)
  deriving DecidableEq

/-- Fresh sqlite rowid for an INTEGER PRIMARY KEY column: one more than
the largest existing id. -/
def freshId (ids : List Nat) : Nat :=
  ids.foldl max 0 + 1

/-- SELECT * FROM incidents WHERE id=? (first row or none). -/
def findIncident (st : Store) (iid : Nat) : Option Incident :=
  st.incidents.find? (fun i => i.id == iid)

/-- SELECT * FROM volunteers WHERE id=? (first row or none). -/
def findVolunteer (st : Store) (vid : Nat) : Option Volunteer :=
  st.volunteers.find? (fun v => v.id == vid)

/-- UPDATE incidents SET status=? WHERE id=?. -/
def setIncidentStatus (l : List Incident) (iid : Nat) (s : String) : List Incident :=
  l.map (fun i => if i.id == iid then { i with status := s } else i)

/-- POST branch of `/register` (src/main5.py lines 765-787): strip the
four fields, reject when username, password or role is empty, otherwise
insert; the sqlite UNIQUE constraint on `username` raises IntegrityError
on a duplicate, answered with the "Username already exists" message. -/
def register (st : Store) (username password role contact : String) : Store × Outcome :=
  let u := pyStrip username
  let p := pyStrip password
  let r := pyStrip role
  let c := pyStrip contact
  if u == "" || p == "" || r == "" then
    (st, Outcome.page (some (Flash.error "All fields except contact are required")))
  else if st.users.any (fun x => x.username == u) then
    (st, Outcome.page (some (Flash.error "Username already exists")))
  else
    ({ st with users := st.users ++
        [{ id := freshId (st.users.map User.id), username := u,
           password_hash := sha256Hex p, role := r, contact := c }] },
     Outcome.redirect "login")

/-- POST branch of `/report` (src/main5.py lines 912-923): coerce the
form fields with `int()` / `float()` — a coercion failure is an
uncaught ValueError — then insert one incident with status "open" and
the current clock value as `reported_at`. -/
def reportIncidentPost (st : Store) (now : Nat) (ty sev lat lng : String) : Store × Outcome :=
  match parsePyInt sev with
  | none => (st, Outcome.serverError "ValueError: invalid literal for int() with base 10")
  | some s =>
    match parsePyFloat lat with
    | none => (st, Outcome.serverError "ValueError: could not convert string to float")
    | some la =>
      match parsePyFloat lng with
      | none => (st, Outcome.serverError "ValueError: could not convert string to float")
      | some ln =>
        ({ st with incidents := st.incidents ++
            [{ id := freshId (st.incidents.map Incident.id), itype := ty, severity := s,
               lat := la, lng := ln, status := "open", reported_at := now }] },
         Outcome.page (some (Flash.success "Incident reported successfully!")))

/-- POST branch of `/assign_tasks` (src/main5.py lines 935-965): look up
the incident and the volunteer; when both exist, insert one task in
"assigned" state and force the incident's status to "in_progress",
otherwise leave the store alone and flash the not-found message. -/
def assignTasksPost (st : Store) (now iid vid : Nat) : Store × Outcome :=
  match findIncident st iid, findVolunteer st vid with
  | some _, some v =>
    ({ st with
        tasks := st.tasks ++
          [{ id := freshId (st.tasks.map Task.id), incident_id := iid, volunteer_id := vid,
             resource_id := none, status := "assigned", created_at := now }],
        incidents := setIncidentStatus st.incidents iid "in_progress" },
     Outcome.page (some (Flash.success
       ("Incident #" ++ toString iid ++ " assigned to " ++ v.name ++ "."))))
  | _, _ =>
    (st, Outcome.page (some (Flash.error "Incident or Volunteer not found.")))

/-- `/update_task_status` (src/main5.py lines 1003-1025): update the
status of the task matching both the submitted id and the session
volunteer's id, then re-read the task row by id alone — `fetchone()[0]`
is a TypeError crash when no such row exists — and mirror the submitted
status onto that task's incident when it is one of the three values. -/
def updateTaskStatus (st : Store) (volId taskId : Nat) (status : String) : Store × Outcome :=
  let tasks' := st.tasks.map (fun t =>
    if t.id == taskId && t.volunteer_id == volId then { t with status := status } else t)
  let st1 : Store := { st with tasks := tasks' }
  match tasks'.find? (fun t => t.id == taskId) with
  | none => (st1, Outcome.serverError "TypeError: NoneType object is not subscriptable")
  | some t =>
    let incidents' :=
      if status == "closed" then setIncidentStatus st1.incidents t.incident_id "closed"
      else if status == "in_progress" then setIncidentStatus st1.incidents t.incident_id "in_progress"
      else if status == "open" then setIncidentStatus st1.incidents t.incident_id "open"
      else st1.incidents
    ({ st1 with incidents := incidents' }, Outcome.redirect "volunteer_tasks")

/-- POST branch of `/resources` (src/main5.py lines 1032-1041). -/
def addResource (st : Store) (rtype qty location : String) : Store :=
  { st with resources := st.resources ++
      [{ id := freshId (st.resources.map Resource.id), rtype := rtype,
         qty := qty, location := location }] }

/-- `/resources/delete/resource_id` (src/main5.py lines 1052-1059). -/
def deleteResourceById (st : Store) (rid : Nat) : Store :=
  { st with resources := st.resources.filter (fun r => r.id != rid) }

/-- Environment of the messaging provider: whether `twilio_client` was
initialised (src/main5.py lines 37-49), and the provider's delivery
outcome per phone number (the success or failure of
`twilio_client.messages.create` at line 664, which also absorbs the
sender-number check at lines 660-662). -/
structure AlertEnv where
  twilioConfigured : Bool
  sendOk : String → Bool

/-- `send_sms_alert` (src/main5.py lines 648-677): returns a
(success, detail) pair and never raises — the provider call is wrapped
in try/except. -/
def sendSmsAlert (env : AlertEnv) (phone _message : String) : Bool × String :=
  if !env.twilioConfigured then (false, "Twilio not configured")
  else if env.sendOk phone then (true, "sent successfully")
  else (false, "Error sending alert")

/-- SELECT phone FROM volunteers WHERE phone IS NOT NULL AND phone != ''
(src/main5.py line 856). -/
def volunteerPhones (st : Store) : List String :=
  st.volunteers.filterMap (fun v =>
    match v.phone with
    | some p => if p == "" then none else some p
    | none => none)

/-- SELECT contact FROM users WHERE contact IS NOT NULL AND contact != ''
(src/main5.py line 881); the model stores contacts as plain strings, with
the empty string for a missing contact. -/
def userContacts (st : Store) : List String :=
  st.users.filterMap (fun u => if u.contact == "" then none else some u.contact)

/-- Per-recipient fan-out loop of a broadcast (src/main5.py lines
862-869 and 886-893): attempt delivery to every contact in order,
counting successes and failures; a failure only increments the failure
counter and never stops the loop. Returns (sent, failed, attempts). -/
def fanOut (env : AlertEnv) (message : String) (phones : List String) :
    Nat × Nat × List String :=
  phones.foldl (fun acc p =>
    if (sendSmsAlert env p message).1 then (acc.1 + 1, acc.2.1, acc.2.2 ++ [p])
    else (acc.1, acc.2.1 + 1, acc.2.2 ++ [p])) (0, 0, [])

/-- Observable result of the `/alerts` POST branch: the flash message,
the success and failure counters, and the list of phone numbers to which
a delivery attempt was made, in order. -/
structure AlertOutcome where
  flash : Option Flash
  sent : Nat
  failed : Nat
  attempts : List String
  deriving DecidableEq

/-- POST branch of `/alerts` (src/main5.py lines 833-899): reject an
empty message, degrade to a simulation notice when Twilio is not
configured, otherwise dispatch to the single-recipient or broadcast
branch selected by `recipient_type`. The handler never writes to the
store. -/
def alertsPost (env : AlertEnv) (st : Store) (recipient_type phone message : String) :
    AlertOutcome :=
  let ph := pyStrip phone
  let msg := pyStrip message
  if msg == "" then
    { flash := some (Flash.error "Message cannot be empty"), sent := 0, failed := 0, attempts := [] }
  else if !env.twilioConfigured then
    { flash := some (Flash.warning
        "Twilio not configured. Alert simulation: would have sent to specified recipients."),
      sent := 0, failed := 0, attempts := [] }
  else if recipient_type == "volunteer" && ph != "" then
    let r := sendSmsAlert env ph msg
    { flash := some (if r.1 then Flash.success r.2 else Flash.error r.2),
      sent := if r.1 then 1 else 0, failed := if r.1 then 0 else 1, attempts := [ph] }
  else if recipient_type == "phone_number" && ph != "" then
    let r := sendSmsAlert env ph msg
    { flash := some (if r.1 then Flash.success r.2 else Flash.error r.2),
      sent := if r.1 then 1 else 0, failed := if r.1 then 0 else 1, attempts := [ph] }
  else if recipient_type == "all_volunteers" then
    let phones := volunteerPhones st
    if phones.isEmpty then
      { flash := some (Flash.error "No volunteers with phone numbers found"),
        sent := 0, failed := 0, attempts := [] }
    else
      let r := fanOut env msg phones
      if r.1 > 0 then
        { flash := some (Flash.success ("Alert sent to " ++ toString r.1 ++ " volunteers" ++
            (if r.2.1 > 0 then " (" ++ toString r.2.1 ++ " failed)" else ""))),
          sent := r.1, failed := r.2.1, attempts := r.2.2 }
      else
        { flash := some (Flash.error ("Failed to send alerts to all " ++
            toString phones.length ++ " volunteers")),
          sent := r.1, failed := r.2.1, attempts := r.2.2 }
  else if recipient_type == "all_users" then
    let contacts := userContacts st
    if contacts.isEmpty then
      { flash := some (Flash.error "No users with contact numbers found"),
        sent := 0, failed := 0, attempts := [] }
    else
      let r := fanOut env msg contacts
      { flash := some (Flash.success ("Alert sent to " ++ toString r.1 ++ " users" ++
          (if r.2.1 > 0 then " (" ++ toString r.2.1 ++ " failed)" else ""))),
        sent := r.1, failed := r.2.1, attempts := r.2.2 }
  else
    { flash := none, sent := 0, failed := 0, attempts := [] }

/-- The role-gated routes of the application (src/main5.py lines
792-1065). -/
inductive Route where
  | dashboard
  | predict
  | report
  | assign
  | resources
  | deleteResource
  | alerts
  | volunteerTasks
  | updateTask
  deriving DecidableEq

/-- The static role table passed to `roles_required` at each route
declaration (src/main5.py lines 794, 830, 909, 930, 981, 1005, 1029,
1054, 1063). -/
def permittedRoles : Route → List String
  | Route.dashboard => ["admin", "reporter", "coordinator", "viewer"]
  | Route.predict => ["admin", "reporter", "viewer"]
  | Route.report => ["admin", "reporter"]
  | Route.assign => ["admin", "coordinator"]
  | Route.resources => ["admin", "coordinator"]
  | Route.deleteResource => ["admin", "coordinator"]
  | Route.alerts => ["admin", "coordinator"]
  | Route.volunteerTasks => ["volunteer"]
  | Route.updateTask => ["volunteer"]

/-- The data of one inbound request: HTTP method, form fields, the URL
parameter of the resource-delete route, the request clock, and the
messaging environment. -/
structure Req where
  isPost : Bool
  incidentId : Nat
  volunteerId : Nat
  taskId : Nat
  statusVal : String
  typeVal : String
  severityVal : String
  latVal : String
  lngVal : String
  qtyVal : String
  locationVal : String
  recipientVal : String
  phoneVal : String
  messageVal : String
  resourceId : Nat
  now : Nat
  env : AlertEnv

/-- Body of each role-gated route once `roles_required` has admitted the
caller: the handler functions above, with the GET branches of the form
routes and the pure view routes rendering a page without touching the
store. -/
def runRoute (route : Route) (userId : Nat) (req : Req) (st : Store) : Store × Outcome :=
  match route with
  | Route.dashboard => (st, Outcome.page none)
  | Route.predict => (st, Outcome.page none)
  | Route.report =>
    if req.isPost then
      reportIncidentPost st req.now req.typeVal req.severityVal req.latVal req.lngVal
    else (st, Outcome.page none)
  | Route.assign =>
    if req.isPost then assignTasksPost st req.now req.incidentId req.volunteerId
    else (st, Outcome.page none)
  | Route.resources =>
    if req.isPost then
      (addResource st req.typeVal req.qtyVal req.locationVal,
       Outcome.page (some (Flash.success "Resource added successfully!")))
    else (st, Outcome.page none)
  | Route.deleteResource => (deleteResourceById st req.resourceId, Outcome.redirect "resources")
  | Route.alerts =>
    if req.isPost then
      (st, Outcome.page (alertsPost req.env st req.recipientVal req.phoneVal req.messageVal).flash)
    else (st, Outcome.page none)
  | Route.volunteerTasks => (st, Outcome.page none)
  | Route.updateTask => updateTaskStatus st userId req.taskId req.statusVal

/-- A request through the `roles_required` decorator (src/main5.py lines
720-728): a logged-in caller whose role is not in the route's permitted
list is answered with `abort(403)` before the handler body runs. -/
def dispatch (route : Route) (role : String) (userId : Nat) (req : Req) (st : Store) :
    Store × Outcome :=
  if (permittedRoles route).contains role then runRoute route userId req st
  else (st, Outcome.forbidden)

/-- The five roles offered by the registration form
(src/main5.py lines 199-206). -/
def validRoles : List String :=
  ["admin", "coordinator", "reporter", "volunteer", "viewer"]

/-! Concrete fixtures used by the witness theorems. -/

/-- A database with all tables empty. -/
def emptyStore : Store :=
  { users := [], incidents := [], volunteers := [], resources := [], tasks := [] }

/-- A seed admin user (src/main5.py lines 590-591). -/
def user1 : User :=
  { id := 1, username := "admin", password_hash := sha256Hex "admin123",
    role := "admin", contact := "+1234567890" }

/-- A closed incident on file. -/
def inc1 : Incident :=
  { id := 1, itype := "Debris Removal", severity := 4, lat := 28, lng := 77,
    status := "closed", reported_at := 50 }

/-- An available volunteer with a phone number. -/
def vol1 : Volunteer :=
  { id := 1, name := "Aarav", phone := some "+919000000011", lat := 28, lng := 77,
    available := 1 }

/-- A volunteer without a phone number. -/
def vol2 : Volunteer :=
  { id := 2, name := "Diya", phone := none, lat := 26, lng := 80, available := 1 }

/-- A task assigned to volunteer 1 for incident 1. -/
def task1 : Task :=
  { id := 1, incident_id := 1, volunteer_id := 1, resource_id := none,
    status := "assigned", created_at := 60 }

/-- A small concrete store for witnesses. -/
def st1 : Store :=
  { users := [user1], incidents := [inc1], volunteers := [vol1, vol2],
    resources := [], tasks := [task1] }

/-- Auxiliary: `find?` by id returns the unique task carrying that id. -/
theorem find_task_unique (l : List Task) (t : Task) (n : Nat)
    (ht : t ∈ l) (hid : t.id = n) (huniq : ∀ u ∈ l, u.id = n → u = t) :
    l.find? (fun u => u.id == n) = some t := by
  induction l with
  | nil => cases ht
  | cons a l ih =>
    by_cases h1 : a.id = n
    · rw [@List.find?_cons_of_pos Task (fun u => u.id == n) a l (beq_iff_eq.mpr h1),
        huniq a (List.mem_cons_self a l) h1]
    · rw [@List.find?_cons_of_neg Task (fun u => u.id == n) a l (by simp [h1])]
      have hta : t ∈ l := by
        rcases List.mem_cons.mp ht with h | h
        · exact absurd (h ▸ hid) h1
        · exact h
      exact ih hta (fun u hu hc => huniq u (List.mem_cons_of_mem a hu) hc)

/-- Auxiliary: `find?` by id over an id-preserving rewrite of the list
returns the rewrite of the unique task carrying that id. -/
theorem find_task_map_unique (f : Task → Task) (hf : ∀ u, (f u).id = u.id)
    (l : List Task) (t : Task) (n : Nat)
    (ht : t ∈ l) (hid : t.id = n) (huniq : ∀ u ∈ l, u.id = n → u = t) :
    (l.map f).find? (fun u => u.id == n) = some (f t) := by
  induction l with
  | nil => cases ht
  | cons a l ih =>
    rw [List.map_cons]
    by_cases h1 : a.id = n
    · rw [@List.find?_cons_of_pos Task (fun u => u.id == n) (f a) (l.map f)
          (beq_iff_eq.mpr ((hf a).trans h1)),
        huniq a (List.mem_cons_self a l) h1]
    · rw [@List.find?_cons_of_neg Task (fun u => u.id == n) (f a) (l.map f)
          (by simp [hf a, h1])]
      have hta : t ∈ l := by
        rcases List.mem_cons.mp ht with h | h
        · exact absurd (h ▸ hid) h1
        · exact h
      exact ih hta (fun u hu hc => huniq u (List.mem_cons_of_mem a hu) hc)

/-- Auxiliary: the guarded task UPDATE leaves the list untouched when the
task carrying the submitted id belongs to a different volunteer. -/
theorem map_task_other (l : List Task) (t : Task) (n volId : Nat) (s : String)
    (huniq : ∀ u ∈ l, u.id = n → u = t) (hother : t.volunteer_id ≠ volId) :
    l.map (fun u =>
        if u.id == n && u.volunteer_id == volId then { u with status := s } else u)
      = l := by
  have key : ∀ u ∈ l,
      (if u.id == n && u.volunteer_id == volId then { u with status := s } else u) = u := by
    intro u hu
    have hcond : (u.id == n && u.volunteer_id == volId) = false := by
      by_cases h1 : u.id = n
      · rw [huniq u hu h1]
        simp [beq_eq_false_iff_ne.mpr hother]
      · simp [h1]
    rw [hcond]
    simp
  rw [List.map_congr_left key]
  exact List.map_id' l

/-- Auxiliary: on the volunteer's own task the guarded UPDATE coincides
with an update keyed by task id alone. -/
theorem map_task_own (l : List Task) (t : Task) (n volId : Nat) (s : String)
    (huniq : ∀ u ∈ l, u.id = n → u = t) (hmine : t.volunteer_id = volId) :
    l.map (fun u =>
        if u.id == n && u.volunteer_id == volId then { u with status := s } else u)
      = l.map (fun u => if u.id == n then { u with status := s } else u) := by
  apply List.map_congr_left
  intro u hu
  by_cases h1 : u.id = n
  · have hc1 : (u.id == n && u.volunteer_id == volId) = true := by
      have ha := huniq u hu h1
      rw [ha] at h1 ⊢
      simp [h1, hmine]
    have hc2 : (u.id == n) = true := beq_iff_eq.mpr h1
    rw [hc1, hc2]
  · have hc1 : (u.id == n && u.volunteer_id == volId) = false := by simp [h1]
    have hc2 : (u.id == n) = false := beq_eq_false_iff_ne.mpr h1
    rw [hc1, hc2]

/-- C1: a POST to /assign_tasks whose incident id and volunteer id both
resolve to existing rows appends exactly one task in "assigned" state
referencing that incident and volunteer, and sets the incident's status
to "in_progress" whatever it was before (the lookup at src/main5.py line
939 does not constrain the incident's status, so a closed incident
qualifies); the other tables are untouched. -/
theorem assign_tasks_assigns (st : Store) (now iid vid : Nat) (inc : Incident) (v : Volunteer)
    (hi : findIncident st iid = some inc) (hv : findVolunteer st vid = some v) :
    ∃ t : Task,
      (assignTasksPost st now iid vid).1.tasks = st.tasks ++ [t] ∧
      t.status = "assigned" ∧ t.incident_id = iid ∧ t.volunteer_id = vid ∧
      (assignTasksPost st now iid vid).1.incidents
        = setIncidentStatus st.incidents iid "in_progress" ∧
      (assignTasksPost st now iid vid).1.volunteers = st.volunteers ∧
      (assignTasksPost st now iid vid).1.users = st.users ∧
      (assignTasksPost st now iid vid).2 = Outcome.page (some (Flash.success
        ("Incident #" ++ toString iid ++ " assigned to " ++ v.name ++ "."))) := by
  unfold assignTasksPost
  rw [hi, hv]
  exact ⟨_, rfl, rfl, rfl, rfl, rfl, rfl, rfl, rfl⟩

/-- Witness for C1 at a concrete store: incident 1 is on file (and
closed), volunteer 1 is on file, and the assignment behaves as stated. -/
theorem assign_tasks_assigns_witness :
    findIncident st1 1 = some inc1 ∧ findVolunteer st1 1 = some vol1 ∧ inc1.status = "closed" ∧
    (∃ t : Task,
      (assignTasksPost st1 70 1 1).1.tasks = st1.tasks ++ [t] ∧
      t.status = "assigned" ∧ t.incident_id = 1 ∧ t.volunteer_id = 1 ∧
      (assignTasksPost st1 70 1 1).1.incidents
        = setIncidentStatus st1.incidents 1 "in_progress" ∧
      (assignTasksPost st1 70 1 1).1.volunteers = st1.volunteers ∧
      (assignTasksPost st1 70 1 1).1.users = st1.users ∧
      (assignTasksPost st1 70 1 1).2 = Outcome.page (some (Flash.success
        ("Incident #" ++ toString 1 ++ " assigned to " ++ vol1.name ++ ".")))) :=
  ⟨by decide, by decide, by decide,
   assign_tasks_assigns st1 70 1 1 inc1 vol1 (by decide) (by decide)⟩

/-- C2: a POST to /assign_tasks in which the incident id or the
volunteer id resolves to no row leaves the whole store unchanged and
flashes the not-found message (src/main5.py lines 964-965). -/
theorem assign_tasks_not_found (st : Store) (now iid vid : Nat)
    (h : findIncident st iid = none ∨ findVolunteer st vid = none) :
    assignTasksPost st now iid vid
      = (st, Outcome.page (some (Flash.error "Incident or Volunteer not found."))) := by
  unfold assignTasksPost
  rcases h with h | h
  · rcases hv : findVolunteer st vid with _ | v <;> rw [h]
  · rcases hi : findIncident st iid with _ | i <;> rw [h]

/-- Witness for C2: incident id 99 is absent from the concrete store and
the assignment request changes nothing. -/
theorem assign_tasks_not_found_witness :
    findIncident st1 99 = none ∧
    assignTasksPost st1 70 99 1
      = (st1, Outcome.page (some (Flash.error "Incident or Volunteer not found."))) :=
  ⟨by decide, assign_tasks_not_found st1 70 99 1 (Or.inl (by decide))⟩

/-- C6 counterexample: a POST to /report whose severity field does not
parse as an integer makes the handler raise an uncaught ValueError
(src/main5.py line 914 calls `int()` outside any try block), so the
request dies with a server error instead of rendering an inline
validation message. -/
theorem report_malformed_counterexample :
    reportIncidentPost emptyStore 0 "Debris Removal" "high" "28.5" "77.25"
      = (emptyStore,
         Outcome.serverError "ValueError: invalid literal for int() with base 10") := by
  decide

/-- C6 amended: when severity does not parse as an integer or lat/lng
does not parse as a float, the /report handler leaves the store
unchanged and propagates an unhandled exception (HTTP 500), rather than
surfacing an inline message. -/
theorem report_malformed_is_crash (st : Store) (now : Nat) (ty sevS latS lngS : String)
    (h : parsePyInt sevS = none ∨ parsePyFloat latS = none ∨ parsePyFloat lngS = none) :
    (reportIncidentPost st now ty sevS latS lngS).1 = st ∧
    ∃ e, (reportIncidentPost st now ty sevS latS lngS).2 = Outcome.serverError e := by
  unfold reportIncidentPost
  rcases h with h | h | h
  · rw [h]; exact ⟨rfl, _, rfl⟩
  · rcases hs : parsePyInt sevS with _ | s
    · exact ⟨rfl, _, rfl⟩
    · rw [h]; exact ⟨rfl, _, rfl⟩
  · rcases hs : parsePyInt sevS with _ | s
    · exact ⟨rfl, _, rfl⟩
    · rcases hla : parsePyFloat latS with _ | la
      · exact ⟨rfl, _, rfl⟩
      · rw [h]; exact ⟨rfl, _, rfl⟩

/-- Witness for the amended C6: a non-numeric latitude crashes the
report handler and leaves the store as it was. -/
theorem report_malformed_is_crash_witness :
    parsePyFloat "north" = none ∧
    ((reportIncidentPost st1 9 "Medical Aid" "3" "north" "77.25").1 = st1 ∧
     ∃ e, (reportIncidentPost st1 9 "Medical Aid" "3" "north" "77.25").2
       = Outcome.serverError e) :=
  ⟨by decide,
   report_malformed_is_crash st1 9 "Medical Aid" "3" "north" "77.25" (Or.inr (Or.inl (by decide)))⟩

/-- C10: a successful POST to /report appends exactly one incident whose
status is "open", whose type, severity and coordinates are the coerced
form values, and whose reported_at clock value is no earlier than the
submission time (the handler stamps `datetime.now()` at insert time,
src/main5.py line 920). -/
theorem report_creates_open_incident (st : Store) (tSubmit now : Nat)
    (ty sevS latS lngS : String) (sev : Int) (la ln : Rat)
    (hs : parsePyInt sevS = some sev) (hla : parsePyFloat latS = some la)
    (hln : parsePyFloat lngS = some ln) (ht : tSubmit ≤ now) :
    ∃ inc : Incident,
      (reportIncidentPost st now ty sevS latS lngS).1.incidents = st.incidents ++ [inc] ∧
      inc.status = "open" ∧ inc.itype = ty ∧ inc.severity = sev ∧
      inc.lat = la ∧ inc.lng = ln ∧ tSubmit ≤ inc.reported_at ∧
      (reportIncidentPost st now ty sevS latS lngS).2
        = Outcome.page (some (Flash.success "Incident reported successfully!")) := by
  unfold reportIncidentPost
  rw [hs, hla, hln]
  exact ⟨_, rfl, rfl, rfl, rfl, rfl, rfl, ht, rfl⟩

/-- Witness for C10 at concrete form input ("3", "28.5", "77.25")
submitted at clock 5 and handled at clock 9. -/
theorem report_creates_open_incident_witness :
    parsePyInt "3" = some 3 ∧ parsePyFloat "28.5" = some (mkRat 57 2) ∧
    parsePyFloat "77.25" = some (mkRat 309 4) ∧ 5 ≤ 9 ∧
    (∃ inc : Incident,
      (reportIncidentPost st1 9 "Medical Aid" "3" "28.5" "77.25").1.incidents
        = st1.incidents ++ [inc] ∧
      inc.status = "open" ∧ inc.itype = "Medical Aid" ∧ inc.severity = 3 ∧
      inc.lat = mkRat 57 2 ∧ inc.lng = mkRat 309 4 ∧ 5 ≤ inc.reported_at ∧
      (reportIncidentPost st1 9 "Medical Aid" "3" "28.5" "77.25").2
        = Outcome.page (some (Flash.success "Incident reported successfully!"))) :=
  ⟨by decide, by decide, by decide, by decide,
   report_creates_open_incident st1 5 9 "Medical Aid" "3" "28.5" "77.25" 3
     (mkRat 57 2) (mkRat 309 4) (by decide) (by decide) (by decide) (by decide)⟩

/-- C3: a logged-in volunteer updating their own task through
/update_task_status sets the task's status to the submitted value
("closed" or "open") and mirrors the same value onto the parent
incident's status (src/main5.py lines 1011-1022). -/
theorem update_own_task_mirrors_incident (st : Store) (volId taskId : Nat) (status : String)
    (t : Task) (ht : t ∈ st.tasks) (hid : t.id = taskId) (hmine : t.volunteer_id = volId)
    (huniq : ∀ u ∈ st.tasks, u.id = taskId → u = t)
    (hstatus : status = "closed" ∨ status = "open") :
    (updateTaskStatus st volId taskId status).1.tasks
      = st.tasks.map (fun u => if u.id == taskId then { u with status := status } else u) ∧
    (updateTaskStatus st volId taskId status).1.incidents
      = setIncidentStatus st.incidents t.incident_id status ∧
    (updateTaskStatus st volId taskId status).2 = Outcome.redirect "volunteer_tasks" := by
  have hf : ∀ u : Task,
      ((fun u => if u.id == taskId && u.volunteer_id == volId then
          { u with status := status } else u) u).id = u.id := by
    intro u
    dsimp only
    split <;> rfl
  have h2 := find_task_map_unique
    (fun u => if u.id == taskId && u.volunteer_id == volId then
      { u with status := status } else u)
    hf st.tasks t taskId ht hid huniq
  have hft : (if t.id == taskId && t.volunteer_id == volId then
      { t with status := status } else t) = { t with status := status } := by
    have hc : (t.id == taskId && t.volunteer_id == volId) = true := by simp [hid, hmine]
    rw [hc]
    simp
  have h2' := h2.trans (congrArg some hft)
  have h1 := map_task_own st.tasks t taskId volId status huniq hmine
  simp only [updateTaskStatus]
  rw [h2']
  simp only [h1]
  rcases hstatus with h | h <;> subst h <;> simp

/-- Witness for C3: volunteer 1 closes their own task 1, and both the
task and incident 1 become "closed". -/
theorem update_own_task_mirrors_incident_witness :
    task1 ∈ st1.tasks ∧ task1.volunteer_id = 1 ∧
    ((updateTaskStatus st1 1 1 "closed").1.tasks
      = st1.tasks.map (fun u => if u.id == 1 then { u with status := "closed" } else u) ∧
    (updateTaskStatus st1 1 1 "closed").1.incidents
      = setIncidentStatus st1.incidents task1.incident_id "closed" ∧
    (updateTaskStatus st1 1 1 "closed").2 = Outcome.redirect "volunteer_tasks") :=
  ⟨by decide, by decide,
   update_own_task_mirrors_incident st1 1 1 "closed" task1 (by decide) (by decide)
     (by decide) (by decide) (Or.inl rfl)⟩

/-- C5: when a logged-in volunteer submits a task id that exists but
belongs to a different volunteer, the guarded UPDATE at src/main5.py
line 1011 matches no row — the tasks table is unchanged — yet the
unguarded re-read at line 1015 still finds the task, and lines 1017-1022
set the parent incident's status to the submitted value anyway. -/
theorem update_foreign_task_frame (st : Store) (volId taskId : Nat) (status : String)
    (t : Task) (ht : t ∈ st.tasks) (hid : t.id = taskId)
    (hother : t.volunteer_id ≠ volId)
    (huniq : ∀ u ∈ st.tasks, u.id = taskId → u = t)
    (hstatus : status = "open" ∨ status = "in_progress" ∨ status = "closed") :
    (updateTaskStatus st volId taskId status).1.tasks = st.tasks ∧
    (updateTaskStatus st volId taskId status).1.incidents
      = setIncidentStatus st.incidents t.incident_id status ∧
    (updateTaskStatus st volId taskId status).2 = Outcome.redirect "volunteer_tasks" := by
  have h1 := map_task_other st.tasks t taskId volId status huniq hother
  have h2 := find_task_unique st.tasks t taskId ht hid huniq
  simp only [updateTaskStatus, h1, h2]
  rcases hstatus with h | h | h <;> subst h <;> simp

/-- Witness for C5: volunteer 2 submits "in_progress" for task 1, which
belongs to volunteer 1; the task keeps its status but incident 1 is
still moved to "in_progress". -/
theorem update_foreign_task_frame_witness :
    task1 ∈ st1.tasks ∧ task1.volunteer_id ≠ 2 ∧
    ((updateTaskStatus st1 2 1 "in_progress").1.tasks = st1.tasks ∧
    (updateTaskStatus st1 2 1 "in_progress").1.incidents
      = setIncidentStatus st1.incidents task1.incident_id "in_progress" ∧
    (updateTaskStatus st1 2 1 "in_progress").2 = Outcome.redirect "volunteer_tasks") :=
  ⟨by decide, by decide,
   update_foreign_task_frame st1 2 1 "in_progress" task1 (by decide) (by decide)
     (by decide) (by decide) (Or.inr (Or.inl rfl))⟩

/-- A sample request for the access-control witness. -/
def req0 : Req :=
  { isPost := true, incidentId := 1, volunteerId := 1, taskId := 1,
    statusVal := "open", typeVal := "Debris Removal", severityVal := "3",
    latVal := "28", lngVal := "77", qtyVal := "5", locationVal := "Central Warehouse",
    recipientVal := "all_volunteers", phoneVal := "", messageVal := "test",
    resourceId := 1, now := 80,
    env := { twilioConfigured := false, sendOk := fun _ => false } }

/-- C4: every request whose session role is outside the route's
permitted list is answered by `roles_required` with HTTP 403 before the
handler body runs, so the store is returned unchanged; and the permitted
lists are exactly the access-policy table of the spec (dashboard, risk
map, report, assign, resources, volunteer task view and update). -/
theorem roles_required_enforced (route : Route) (role : String) (uid : Nat) (req : Req)
    (st : Store) (h : (permittedRoles route).contains role = false) :
    dispatch route role uid req st = (st, Outcome.forbidden) ∧
    permittedRoles Route.dashboard = ["admin", "reporter", "coordinator", "viewer"] ∧
    permittedRoles Route.predict = ["admin", "reporter", "viewer"] ∧
    permittedRoles Route.report = ["admin", "reporter"] ∧
    permittedRoles Route.assign = ["admin", "coordinator"] ∧
    permittedRoles Route.resources = ["admin", "coordinator"] ∧
    permittedRoles Route.volunteerTasks = ["volunteer"] ∧
    permittedRoles Route.updateTask = ["volunteer"] := by
  refine ⟨?_, rfl, rfl, rfl, rfl, rfl, rfl, rfl⟩
  unfold dispatch
  rw [h]
  simp

/-- Witness for C4: a volunteer calling the report route receives 403
and the store is untouched. -/
theorem roles_required_enforced_witness :
    (permittedRoles Route.report).contains "volunteer" = false ∧
    (dispatch Route.report "volunteer" 3 req0 st1 = (st1, Outcome.forbidden) ∧
     permittedRoles Route.dashboard = ["admin", "reporter", "coordinator", "viewer"] ∧
     permittedRoles Route.predict = ["admin", "reporter", "viewer"] ∧
     permittedRoles Route.report = ["admin", "reporter"] ∧
     permittedRoles Route.assign = ["admin", "coordinator"] ∧
     permittedRoles Route.resources = ["admin", "coordinator"] ∧
     permittedRoles Route.volunteerTasks = ["volunteer"] ∧
     permittedRoles Route.updateTask = ["volunteer"]) :=
  ⟨by decide, roles_required_enforced Route.report "volunteer" 3 req0 st1 (by decide)⟩

/-- C7 counterexample: the register handler stores whatever role string
the POST carries — submitting role "superuser" creates a user whose role
is outside the five-value set. The five options exist only in the HTML
dropdown (src/main5.py lines 199-206); the handler validates nothing
about the role (lines 765-781). -/
theorem register_role_counterexample :
    (register emptyStore "eve" "pw" "superuser" "").1.users.map User.role = ["superuser"] ∧
    validRoles.contains "superuser" = false := by
  decide

/-- C7 amended: registration stores exactly the submitted (stripped)
role string, so the five-role invariant is preserved precisely when the
submitted role is one of the five form values; the handler itself does
not enforce the set. -/
theorem register_role_preserved (st : Store) (username password role contact : String)
    (hst : ∀ u ∈ st.users, u.role ∈ validRoles)
    (hrole : pyStrip role ∈ validRoles) :
    ∀ u ∈ (register st username password role contact).1.users, u.role ∈ validRoles := by
  intro u hu
  simp only [register] at hu
  split at hu
  · exact hst u hu
  · split at hu
    · exact hst u hu
    · rcases List.mem_append.mp hu with h | h
      · exact hst u h
      · have hx := List.mem_singleton.mp h
        subst hx
        exact hrole

/-- Witness for the amended C7: registering "bob" with role "viewer" in
the concrete store keeps every stored role inside the five-value set. -/
theorem register_role_preserved_witness :
    (∀ u ∈ st1.users, u.role ∈ validRoles) ∧ pyStrip "viewer" ∈ validRoles ∧
    (∀ u ∈ (register st1 "bob" "pw" "viewer" "").1.users, u.role ∈ validRoles) :=
  ⟨by decide, by decide,
   register_role_preserved st1 "bob" "pw" "viewer" "" (by decide) (by decide)⟩

/-- C8: with the three required fields non-empty after stripping — a
duplicate username leaves the store unchanged and flashes "Username
already exists" (the sqlite UNIQUE constraint raising IntegrityError,
src/main5.py lines 782-785), while a fresh username inserts exactly one
user row carrying the stripped username and role and redirects to the
login page. -/
theorem register_conflict_or_insert (st : Store) (username password role contact : String)
    (hu : pyStrip username ≠ "") (hp : pyStrip password ≠ "") (hr : pyStrip role ≠ "") :
    (st.users.any (fun x => x.username == pyStrip username) = true →
      register st username password role contact
        = (st, Outcome.page (some (Flash.error "Username already exists")))) ∧
    (st.users.any (fun x => x.username == pyStrip username) = false →
      ∃ u : User,
        (register st username password role contact).1.users = st.users ++ [u] ∧
        u.username = pyStrip username ∧ u.role = pyStrip role ∧
        (register st username password role contact).2 = Outcome.redirect "login") := by
  have hc : (pyStrip username == "" || pyStrip password == "" || pyStrip role == "")
      = false := by
    simp [hu, hp, hr]
  constructor
  · intro hdup
    simp only [register]
    rw [hc, hdup]
    simp
  · intro hfresh
    simp only [register]
    rw [hc, hfresh]
    exact ⟨_, rfl, rfl, rfl, rfl⟩

/-- Witness for C8: re-registering "admin" is rejected with the conflict
message and the store is unchanged; registering the fresh "bob2" inserts
exactly one row. -/
theorem register_conflict_or_insert_witness :
    st1.users.any (fun x => x.username == pyStrip "admin") = true ∧
    register st1 "admin" "pw2" "viewer" ""
      = (st1, Outcome.page (some (Flash.error "Username already exists"))) ∧
    st1.users.any (fun x => x.username == pyStrip "bob2") = false ∧
    (∃ u : User,
      (register st1 "bob2" "pw" "viewer" "").1.users = st1.users ++ [u] ∧
      u.username = pyStrip "bob2" ∧ u.role = pyStrip "viewer" ∧
      (register st1 "bob2" "pw" "viewer" "").2 = Outcome.redirect "login") :=
  ⟨by decide,
   (register_conflict_or_insert st1 "admin" "pw2" "viewer" ""
     (by decide) (by decide) (by decide)).1 (by decide),
   by decide,
   (register_conflict_or_insert st1 "bob2" "pw" "viewer" ""
     (by decide) (by decide) (by decide)).2 (by decide)⟩

/-- Auxiliary: the fan-out loop attempts every phone exactly once in
order, and each attempt increments exactly one of the two counters. -/
theorem fanOut_go (env : AlertEnv) (msg : String) :
    ∀ (phones : List String) (s f : Nat) (a : List String),
      ((phones.foldl (fun acc p =>
          if (sendSmsAlert env p msg).1 then (acc.1 + 1, acc.2.1, acc.2.2 ++ [p])
          else (acc.1, acc.2.1 + 1, acc.2.2 ++ [p])) (s, f, a)).2.2 = a ++ phones) ∧
      ((phones.foldl (fun acc p =>
          if (sendSmsAlert env p msg).1 then (acc.1 + 1, acc.2.1, acc.2.2 ++ [p])
          else (acc.1, acc.2.1 + 1, acc.2.2 ++ [p])) (s, f, a)).1
        + (phones.foldl (fun acc p =>
          if (sendSmsAlert env p msg).1 then (acc.1 + 1, acc.2.1, acc.2.2 ++ [p])
          else (acc.1, acc.2.1 + 1, acc.2.2 ++ [p])) (s, f, a)).2.1
        = s + f + phones.length) := by
  intro phones
  induction phones with
  | nil => intro s f a; simp
  | cons p l ih =>
    intro s f a
    rw [List.foldl_cons]
    by_cases hp : (sendSmsAlert env p msg).1 = true
    · rw [if_pos hp]
      rcases ih (s + 1) f (a ++ [p]) with ⟨h1, h2⟩
      refine ⟨?_, ?_⟩
      · rw [h1]; simp
      · rw [h2]; simp only [List.length_cons]; omega
    · rw [if_neg hp]
      rcases ih s (f + 1) (a ++ [p]) with ⟨h1, h2⟩
      refine ⟨?_, ?_⟩
      · rw [h1]; simp
      · rw [h2]; simp only [List.length_cons]; omega

/-- Auxiliary: summary of the fan-out loop started from zero counters. -/
theorem fanOut_spec (env : AlertEnv) (msg : String) (phones : List String) :
    (fanOut env msg phones).2.2 = phones ∧
    (fanOut env msg phones).1 + (fanOut env msg phones).2.1 = phones.length := by
  have h := fanOut_go env msg phones 0 0 []
  simpa [fanOut] using h

/-- C9: with the messaging provider configured and a non-empty message,
broadcasting to all volunteers attempts delivery exactly once to each
volunteer phone that is non-null and non-empty, in table order, and the
counters satisfy sent + failed = N where N is the number of such
volunteers; a failed attempt only increments the failure counter and
never aborts the loop. -/
theorem alerts_broadcast_fanout (env : AlertEnv) (st : Store) (phone message : String)
    (henv : env.twilioConfigured = true) (hmsg : pyStrip message ≠ "") :
    (alertsPost env st "all_volunteers" phone message).attempts = volunteerPhones st ∧
    (alertsPost env st "all_volunteers" phone message).sent
      + (alertsPost env st "all_volunteers" phone message).failed
      = (volunteerPhones st).length := by
  have hm : (pyStrip message == "") = false := beq_eq_false_iff_ne.mpr hmsg
  by_cases hvp : (volunteerPhones st).isEmpty = true
  · have hnil : volunteerPhones st = [] := List.isEmpty_iff.mp hvp
    simp [alertsPost, hm, henv, hnil]
  · rcases fanOut_spec env (pyStrip message) (volunteerPhones st) with ⟨h1, h2⟩
    by_cases hpos : 0 < (fanOut env (pyStrip message) (volunteerPhones st)).1
    · simp [alertsPost, hm, henv, hvp, hpos, h1, h2]
    · simp [alertsPost, hm, henv, hvp, hpos, h1, h2]

/-- A configured messaging environment in which only volunteer 1's
number is deliverable. -/
def env1 : AlertEnv :=
  { twilioConfigured := true, sendOk := fun p => p == "+919000000011" }

/-- Witness for C9: broadcasting in the concrete store (one volunteer
with a phone, one without) attempts exactly the one phone on file and
the counters add up to one. -/
theorem alerts_broadcast_fanout_witness :
    env1.twilioConfigured = true ∧ pyStrip "Evacuate now" ≠ "" ∧
    ((alertsPost env1 st1 "all_volunteers" "" "Evacuate now").attempts
      = volunteerPhones st1 ∧
    (alertsPost env1 st1 "all_volunteers" "" "Evacuate now").sent
      + (alertsPost env1 st1 "all_volunteers" "" "Evacuate now").failed
      = (volunteerPhones st1).length) :=
  ⟨rfl, by decide, alerts_broadcast_fanout env1 st1 "" "Evacuate now" rfl (by decide)⟩

end DebrisOps
